import Mathlib

/-!
Verification development for the Performa repository (timyjsong/Performa).

The executable backend is embedded shallowly:
* `server/controllers/nbaScraper.js` — `scrapeNBAData`, `generateHistoricalData`,
  and the hardcoded `dummyPlayers` table;
* `server/routes/scrapers.js` — the POST `/nba` trigger handler and the
  GET `/status` handler;
* `server/routes/players.js` — the GET `/:id` single-player read handler.

Modelling conventions:
* The players data file (`server/data/players.json`) is a `FileState`: it is
  absent, present but not parseable as JSON (`corrupt`), or holds a parsed
  `PlayersData` value (`stored`).
* JavaScript `Date` values are modelled as integer day numbers (days since an
  arbitrary epoch); `date.setDate(today.getDate() - i)` becomes `today - i`.
  Strictly increasing day numbers correspond to strictly increasing
  `toISOString` date strings.
* JavaScript numbers are modelled as rationals.  `Math.random()` is modelled
  as an explicit stream `rng : Nat -> Rat` of draws (one stream per
  `generateHistoricalData` call), constrained to `[0, 1)` where a claim needs
  it.  `x.toFixed(1)` followed by `parseFloat` is `roundTo1` (round to the
  nearest tenth, ties away from zero; all values produced by the code are
  nonnegative, where this agrees with round-half-up).
* The scraper performs no network request (the imported `axios`/`cheerio`
  modules are never used), so the embedding has no network input at all.
-/

/-- A single data point of a player statistic: a calendar day (as a day
number) and a numeric value.  Mirrors the objects pushed by
`generateHistoricalData` (`{date, value}`). -/
structure StatPoint where
  date : Int
  value : Rat
deriving DecidableEq, Repr

/-- The three metric series attached to each player by the scraper
(`stats: {points, rebounds, assists}`). -/
structure PlayerStats where
  points : List StatPoint
  rebounds : List StatPoint
  assists : List StatPoint
deriving DecidableEq, Repr, Inhabited

/-- A stored player record, as written by `scrapeNBAData` and read back by
the players routes. -/
structure Player where
  id : Int
  name : String
  team : String
  sport : String
  position : String
  stats : PlayerStats
deriving DecidableEq, Repr, Inhabited

/-- The parsed content of `server/data/players.json`: `{ players: [...] }`. -/
structure PlayersData where
  players : List Player
deriving DecidableEq, Repr

/-- The state of the players data file on disk: missing, present but not
valid JSON, or present and parsed. -/
inductive FileState where
  | absent : FileState
  | corrupt : FileState
  | stored : PlayersData → FileState
deriving DecidableEq, Repr

/-- Round a rational to one decimal place, ties away from zero: the
composition `parseFloat((x).toFixed(1))` of `nbaScraper.js`. -/
def roundTo1 (x : Rat) : Rat :=
  if 0 ≤ x then ((⌊10 * x + 1/2⌋ : Int) : Rat) / 10
  else -((⌊-(10 * x) + 1/2⌋ : Int) : Rat) / 10

/-- `generateHistoricalData(min, max)` from `nbaScraper.js`: for
`i = 30, 29, ..., 0` pushes a point dated `today - i` days with value
`roundTo1(random * (max - min) + min)`.  The k-th pushed point (k from 0)
has `i = 30 - k`; `rng k` is the k-th `Math.random()` draw of this call. -/
def generateHistoricalData (min max : Int) (today : Int) (rng : Nat → Rat) :
    List StatPoint :=
  (List.range 31).map (fun (k : Nat) =>
    { date := today - (30 - (k : Int)),
      value := roundTo1 (rng k * ((max : Rat) - (min : Rat)) + (min : Rat)) })

/-- The hardcoded `dummyPlayers` array of `scrapeNBAData`.  The six
`generateHistoricalData` calls consume six independent random streams
`rng 0 .. rng 5`, in source order. -/
def dummyPlayers (today : Int) (rng : Nat → Nat → Rat) : List Player :=
  [ { id := 1,
      name := "LeBron James",
      team := "Los Angeles Lakers",
      sport := "NBA",
      position := "Forward",
      stats :=
        { points := generateHistoricalData 25 35 today (rng 0),
          rebounds := generateHistoricalData 7 10 today (rng 1),
          assists := generateHistoricalData 7 11 today (rng 2) } },
    { id := 2,
      name := "Stephen Curry",
      team := "Golden State Warriors",
      sport := "NBA",
      position := "Guard",
      stats :=
        { points := generateHistoricalData 20 33 today (rng 3),
          rebounds := generateHistoricalData 4 7 today (rng 4),
          assists := generateHistoricalData 5 8 today (rng 5) } } ]

/-- The load step of `scrapeNBAData`: start from `{ players: [] }`; if the
data file exists, replace that with `JSON.parse(readFileSync(dataFile))`,
which throws on unparseable content. -/
def loadData (fs : FileState) : Except String PlayersData :=
  match fs with
  | .absent => .ok ⟨[]⟩
  | .corrupt => .error "Unexpected token in JSON"
  | .stored d => .ok d

/-- `scrapeNBAData` from `nbaScraper.js`: load the existing data, merge
`dummyPlayers` with the prior players whose sport is not "NBA"
(`[...dummyPlayers, ...data.players.filter(p => p.sport !== "NBA")]`),
write the merged data back, and return `dummyPlayers`.  The `catch` block
rethrows, so on a load failure nothing is written and the file keeps its
prior state.  Returns the resulting file state and the outcome. -/
def scrapeNBAData (fs : FileState) (today : Int) (rng : Nat → Nat → Rat) :
    FileState × Except String (List Player) :=
  match loadData fs with
  | .error e => (fs, .error e)
  | .ok d =>
      let dp := dummyPlayers today rng
      let merged : PlayersData :=
        ⟨dp ++ d.players.filter (fun p => p.sport != "NBA")⟩
      (.stored merged, .ok dp)

/-- The response of the POST `/nba` trigger route of `routes/scrapers.js`.
`completed` is the 200 response `{message: 'NBA data scraping completed'}`,
`serverError` the 500 response.  `alreadyRunning` is the spec's
`AlreadyRunning` answer, included so that statements can compare the code's
responses against it; the code never produces it. -/
inductive ScraperTriggerResponse where
  | completed : ScraperTriggerResponse
  | serverError : String → ScraperTriggerResponse
  | alreadyRunning : ScraperTriggerResponse
deriving DecidableEq, Repr

/-- The POST `/nba` handler of `routes/scrapers.js`: it awaits
`scrapeNBAData()` and answers with the completion message, or a 500 on
error.  It consults no run state before starting the scrape. -/
def nbaPostHandler (fs : FileState) (today : Int) (rng : Nat → Nat → Rat) :
    ScraperTriggerResponse × FileState :=
  match scrapeNBAData fs today rng with
  | (fs2, .ok _) => (.completed, fs2)
  | (fs2, .error e) => (.serverError e, fs2)

/-- The body of the GET `/status` response of `routes/scrapers.js`
(`{nba: {status, lastRun}}`, restricted to the single `nba` entry). -/
structure SportStatus where
  status : String
  lastRun : Option String
deriving DecidableEq, Repr

/-- The GET `/status` handler of `routes/scrapers.js`: it answers the
hardcoded value `{nba: {status: 'idle', lastRun: null}}`, reading nothing
from the server's persistent state. -/
def statusGetHandler (_fs : FileState) : SportStatus :=
  { status := "idle", lastRun := none }

/-- JavaScript StrWhiteSpace, the characters `parseInt` strips from the
front of its argument: WhiteSpace (tab U+0009, VT U+000B, FF U+000C, space
U+0020, NBSP U+00A0, ZWNBSP U+FEFF and the Unicode Zs space separators
U+1680, U+2000–U+200A, U+202F, U+205F, U+3000) and LineTerminator (LF
U+000A, CR U+000D, LS U+2028, PS U+2029). -/
def isWhiteSpaceJS (c : Char) : Bool :=
  c.toNat ∈ [9, 10, 11, 12, 13, 32, 160, 0x1680, 0x2028, 0x2029,
    0x202F, 0x205F, 0x3000, 0xFEFF]
  || (0x2000 ≤ c.toNat && c.toNat ≤ 0x200A)

/-- The value of a decimal-digit run, most significant first. -/
def digitsToNat (ds : List Char) : Nat :=
  ds.foldl (fun acc c => 10 * acc + (c.toNat - '0'.toNat)) 0

/-- Hexadecimal digits, as `parseInt` accepts after a `0x`/`0X` prefix. -/
def isHexDigitJS (c : Char) : Bool :=
  c.isDigit || ('a' ≤ c && c ≤ 'f') || ('A' ≤ c && c ≤ 'F')

/-- The numeric value of one hexadecimal digit. -/
def hexDigitVal (c : Char) : Nat :=
  if c.isDigit then c.toNat - '0'.toNat
  else if 'a' ≤ c && c ≤ 'f' then c.toNat - 'a'.toNat + 10
  else c.toNat - 'A'.toNat + 10

/-- The value of a hexadecimal-digit run, most significant first. -/
def hexDigitsToNat (ds : List Char) : Nat :=
  ds.foldl (fun acc c => 16 * acc + hexDigitVal c) 0

/-- The unsigned part of JavaScript `parseInt` with no explicit radix: a
leading `0x` or `0X` selects radix 16 and the longest run of hexadecimal
digits after the prefix (no digit there is `NaN`, with no decimal
fallback); otherwise the longest run of leading decimal digits, `none`
modelling `NaN` when it is empty. -/
def parseIntDigits (cs : List Char) : Option Nat :=
  match cs with
  | '0' :: 'x' :: rest =>
      let hs := rest.takeWhile isHexDigitJS
      if hs = [] then none else some (hexDigitsToNat hs)
  | '0' :: 'X' :: rest =>
      let hs := rest.takeWhile isHexDigitJS
      if hs = [] then none else some (hexDigitsToNat hs)
  | _ =>
      let ds := cs.takeWhile Char.isDigit
      if ds = [] then none else some (digitsToNat ds)

/-- JavaScript `parseInt(s)` with no radix argument, as applied to the
`:id` route parameter: strip leading StrWhiteSpace, accept an optional
sign, then read the number per `parseIntDigits` (hexadecimal after a
`0x`/`0X` prefix, else decimal); `none` models the `NaN` result. -/
def parseIntJS (s : String) : Option Int :=
  let cs := s.data.dropWhile isWhiteSpaceJS
  match cs with
  | '-' :: rest => (parseIntDigits rest).map (fun n => -(n : Int))
  | '+' :: rest => (parseIntDigits rest).map (fun n => (n : Int))
  | _ => (parseIntDigits cs).map (fun n => (n : Int))

/-- The find predicate of the GET `/:id` handler of `routes/players.js`:
`p.id === parseInt(req.params.id)` (strict equality with `NaN` is false). -/
def idMatches (idParam : String) (p : Player) : Bool :=
  match parseIntJS idParam with
  | some n => p.id == n
  | none => false

/-- The response of the GET `/:id` route of `routes/players.js`. -/
inductive PlayerResponse where
  | ok : Player → PlayerResponse
  | notFound : String → PlayerResponse
  | serverError : String → PlayerResponse
deriving DecidableEq, Repr

/-- The GET `/:id` handler of `routes/players.js`: parse the data file,
`find` the first player with `p.id === parseInt(req.params.id)`, answer 404
`'Player not found'` when `find` yields nothing, 500 when reading or parsing
the file throws.  The handler only reads; the returned file state is the
input one. -/
def getPlayerById (fs : FileState) (idParam : String) :
    PlayerResponse × FileState :=
  match fs with
  | .stored d =>
      match d.players.find? (idMatches idParam) with
      | some p => (.ok p, fs)
      | none => (.notFound "Player not found", fs)
  | _ => (.serverError "Error reading player data", fs)

/-- Projection used to compare successive runs: a player record with its
stat values erased, keeping id, name, team, sport, position and the three
date sequences. -/
def scrubStats (s : PlayerStats) : List Int × List Int × List Int :=
  (s.points.map StatPoint.date, s.rebounds.map StatPoint.date,
    s.assists.map StatPoint.date)

/-- See `scrubStats`. -/
def scrubPlayer (p : Player) :
    Int × String × String × String × String ×
      (List Int × List Int × List Int) :=
  (p.id, p.name, p.team, p.sport, p.position, scrubStats p.stats)

/-- The value of the first points StatPoint of the first stored player, if
any; a one-place observation used to separate two file states. -/
def firstPointsValue (fs : FileState) : Option Rat :=
  match fs with
  | .stored d =>
      d.players.head?.bind (fun p => p.stats.points.head?.map StatPoint.value)
  | _ => none

/-- A constant zero random stream. -/
def zeroRng : Nat → Nat → Rat := fun _ _ => 0

/-- A constant one-half random stream. -/
def halfRng : Nat → Nat → Rat := fun _ _ => 1/2

/-- A non-NBA player record, used to instantiate frame-effect statements. -/
def samplePlayer : Player :=
  { id := 7, name := "Sidney Crosby", team := "Pittsburgh Penguins",
    sport := "NHL", position := "Center", stats := ⟨[], [], []⟩ }

/-- Modelled from the spec: the RateLimiter component (spec section 4.2) is
absent from the executable code (the spec's design notes record that the
documented scraper exists only as a synthetic-data stub), so its per-origin
configuration is reconstructed from the spec's words: the robots.txt
crawl-delay and the configured global minimum delay. -/
structure RateLimiterConfig where
  crawlDelay : Nat
  globalFloor : Nat
deriving DecidableEq, Repr

/-- Modelled from the spec: the currently effective delay for an origin is
the maximum of the robots.txt crawl-delay and the configured global floor. -/
def effectiveDelay (c : RateLimiterConfig) : Nat :=
  Nat.max c.crawlDelay c.globalFloor

/-- Modelled from the spec: the release schedule of one origin's FIFO
RateLimiter queue.  `arrivals` lists the callers' arrival times in queue
order (nondecreasing for honest clocks, but not required); `prev` is the
time of the last release so far, if any.  A caller is released no earlier
than its arrival and no earlier than `prev + d`, where `d` is the effective
delay; its release becomes the next `prev`.  Callers are served strictly in
queue order, one at a time. -/
def releaseSchedule (d : Nat) : Option Nat → List Nat → List Nat
  | _, [] => []
  | none, a :: rest => a :: releaseSchedule d (some a) rest
  | some t, a :: rest =>
      let r := Nat.max a (t + d)
      r :: releaseSchedule d (some r) rest

example :
    (scrapeNBAData .absent 0 (fun _ _ => 0)).2
      = .ok (dummyPlayers 0 (fun _ _ => 0)) := by
  rfl

example : roundTo1 (253/10) = 253/10 := by norm_num [roundTo1]
example : roundTo1 (2534/100) = 253/10 := by norm_num [roundTo1]
example : roundTo1 (2535/100) = 254/10 := by norm_num [roundTo1]
example : parseIntJS "7" = some 7 := by rfl
example : parseIntJS " -12abc" = some (-12) := by rfl
example : parseIntJS "abc" = none := by rfl
example : parseIntJS "0x10" = some 16 := by rfl
example : parseIntJS " -0XfF" = some (-255) := by rfl
example : parseIntJS "0x" = none := by rfl
example : parseIntJS " 042xyz" = some 42 := by rfl
example : releaseSchedule 2 none [0, 0, 5] = [0, 2, 5] := by rfl

/-- Claim C4: an NBA scrape over a stored prior state writes exactly the new
dummy NBA players followed by the prior players of other sports; the kept
tail is a sublist of the prior list (records untouched, in order), and every
prior non-NBA player is still present. -/
theorem scrape_preserves_other_sports (d : PlayersData) (today : Int)
    (rng : Nat → Nat → Rat) :
    (scrapeNBAData (.stored d) today rng).1
        = .stored ⟨dummyPlayers today rng
            ++ d.players.filter (fun p => p.sport != "NBA")⟩
    ∧ List.Sublist (d.players.filter (fun p => p.sport != "NBA")) d.players
    ∧ ∀ p ∈ d.players, p.sport ≠ "NBA" →
        p ∈ dummyPlayers today rng
              ++ d.players.filter (fun p => p.sport != "NBA") := by
  refine ⟨rfl, List.filter_sublist _, ?_⟩
  intro p hp hs
  exact List.mem_append_right _ (List.mem_filter.2 ⟨hp, by simp [hs]⟩)

/-- Witness for `scrape_preserves_other_sports` at a concrete non-NBA
player. -/
theorem scrape_preserves_other_sports_witness :
    samplePlayer ∈ dummyPlayers 0 zeroRng
        ++ (PlayersData.mk [samplePlayer]).players.filter
             (fun p => p.sport != "NBA") :=
  (scrape_preserves_other_sports ⟨[samplePlayer]⟩ 0 zeroRng).2.2 samplePlayer
    (by simp) (by decide)

/-- Claim C6: a scrape over an existing but unparseable data file raises
(`JSON.parse` throws, the catch block rethrows), and whenever the scrape
fails, the data file is left in exactly its prior state — nothing partial is
written. -/
theorem scrape_failure_leaves_file_unchanged (fs : FileState) (today : Int)
    (rng : Nat → Nat → Rat) :
    (scrapeNBAData .corrupt today rng).2 = .error "Unexpected token in JSON"
    ∧ ∀ e, (scrapeNBAData fs today rng).2 = .error e →
        (scrapeNBAData fs today rng).1 = fs := by
  refine ⟨rfl, ?_⟩
  intro e he
  cases fs <;> simp [scrapeNBAData, loadData] at he ⊢

/-- Witness for `scrape_failure_leaves_file_unchanged` at the corrupt file
state. -/
theorem scrape_failure_leaves_file_unchanged_witness :
    (scrapeNBAData .corrupt 0 zeroRng).1 = .corrupt :=
  (scrape_failure_leaves_file_unchanged .corrupt 0 zeroRng).2
    "Unexpected token in JSON" rfl

/-- Helper: a successful scrape always returns the dummy player set,
whatever the prior file state. -/
theorem scrape_ok_eq_dummyPlayers (fs : FileState) (today : Int)
    (rng : Nat → Nat → Rat) (ps : List Player)
    (hrun : (scrapeNBAData fs today rng).2 = .ok ps) :
    ps = dummyPlayers today rng := by
  cases fs with
  | absent => simpa [scrapeNBAData, loadData, eq_comm] using hrun
  | corrupt => simp [scrapeNBAData, loadData] at hrun
  | stored d => simpa [scrapeNBAData, loadData, eq_comm] using hrun

/-- Claim C8: every successful scrape, from any prior file state, returns
exactly the fixed dummy player set — two NBA players, id 1 LeBron James and
id 2 Stephen Curry.  The embedding has no network input at all because the
code performs no request (axios and cheerio are imported but unused), and
the three metrics points, rebounds and assists are the fields of
`PlayerStats`, so each returned player carries exactly those three. -/
theorem scrape_returns_fixed_player_set (fs : FileState) (today : Int)
    (rng : Nat → Nat → Rat) (ps : List Player)
    (hrun : (scrapeNBAData fs today rng).2 = .ok ps) :
    ps = dummyPlayers today rng
    ∧ ps.length = 2
    ∧ ps.map Player.id = [1, 2]
    ∧ ps.map Player.name = ["LeBron James", "Stephen Curry"]
    ∧ ps.map Player.sport = ["NBA", "NBA"] := by
  have hps := scrape_ok_eq_dummyPlayers fs today rng ps hrun
  subst hps
  exact ⟨rfl, rfl, rfl, rfl, rfl⟩

/-- Witness for `scrape_returns_fixed_player_set` at the absent file
state. -/
theorem scrape_returns_fixed_player_set_witness :
    (dummyPlayers 0 zeroRng).map Player.id = [1, 2] :=
  (scrape_returns_fixed_player_set .absent 0 zeroRng
    (dummyPlayers 0 zeroRng) rfl).2.2.1

/-- Helper: the first points value stored after a scrape over an empty
stored list is the rounded first draw mapped into `[25, 35]`. -/
theorem firstPointsValue_after_scrape (today : Int) (rng : Nat → Nat → Rat) :
    firstPointsValue ((scrapeNBAData (.stored ⟨[]⟩) today rng).1)
      = some (roundTo1 (rng 0 0 * ((35 : Rat) - 25) + 25)) := rfl

/-- Helper: the same observation after a second scrape over the first
scrape's output. -/
theorem firstPointsValue_after_rescrape (today : Int)
    (rng1 rng2 : Nat → Nat → Rat) :
    firstPointsValue
        ((scrapeNBAData ((scrapeNBAData (.stored ⟨[]⟩) today rng1).1)
            today rng2).1)
      = some (roundTo1 (rng2 0 0 * ((35 : Rat) - 25) + 25)) := rfl

/-- Claim C2, counterexample: the POST `/nba` route consults no run state.
A trigger issued right after another trigger's run — the situation the
claim reserves for `AlreadyRunning` — is answered with the completion
message and starts its own scrape (the stored state changes again), never
with `AlreadyRunning`. -/
theorem nbaPost_no_single_flight :
    (nbaPostHandler (.stored ⟨[]⟩) 0 zeroRng).1 = .completed
    ∧ (nbaPostHandler ((nbaPostHandler (.stored ⟨[]⟩) 0 zeroRng).2) 0
        halfRng).1 = .completed
    ∧ (nbaPostHandler ((nbaPostHandler (.stored ⟨[]⟩) 0 zeroRng).2) 0
        halfRng).2 ≠ (nbaPostHandler (.stored ⟨[]⟩) 0 zeroRng).2
    ∧ ScraperTriggerResponse.completed ≠ .alreadyRunning := by
  refine ⟨rfl, rfl, ?_, by simp⟩
  intro h
  have h2 := congrArg firstPointsValue h
  have e1 : firstPointsValue ((nbaPostHandler (.stored ⟨[]⟩) 0 zeroRng).2)
      = some (roundTo1 ((0 : Rat) * ((35 : Rat) - 25) + 25)) := rfl
  have e2 : firstPointsValue
      ((nbaPostHandler ((nbaPostHandler (.stored ⟨[]⟩) 0 zeroRng).2) 0
          halfRng).2)
      = some (roundTo1 ((1/2 : Rat) * ((35 : Rat) - 25) + 25)) := rfl
  rw [e1, e2] at h2
  norm_num [roundTo1] at h2

/-- Claim C2, amended: the trigger endpoint implements no single-flight
control.  Every trigger request, whatever the current state, invokes the
scraper (the resulting file state is the scrape's post-state) and is
answered with the completion message or a 500 error — never with
`AlreadyRunning`. -/
theorem nbaPost_always_starts_run (fs : FileState) (today : Int)
    (rng : Nat → Nat → Rat) :
    ((nbaPostHandler fs today rng).1 = .completed
      ∨ (nbaPostHandler fs today rng).1
          = .serverError "Unexpected token in JSON")
    ∧ (nbaPostHandler fs today rng).1 ≠ .alreadyRunning
    ∧ (nbaPostHandler fs today rng).2 = (scrapeNBAData fs today rng).1 := by
  cases fs <;>
    simp [nbaPostHandler, scrapeNBAData, loadData]

/-- Claim C3, counterexample: immediately after a visibly completed run (the
trigger answered with the completion message), the status endpoint still
answers the hardcoded `{status: 'idle', lastRun: null}` — it does not return
the run's recorded outcome or last-run information, because nothing is ever
recorded. -/
theorem statusGet_ignores_completed_run :
    (nbaPostHandler (.stored ⟨[]⟩) 0 zeroRng).1 = .completed
    ∧ statusGetHandler ((nbaPostHandler (.stored ⟨[]⟩) 0 zeroRng).2)
        = ⟨"idle", none⟩
    ∧ (statusGetHandler
        ((nbaPostHandler (.stored ⟨[]⟩) 0 zeroRng).2)).lastRun = none :=
  ⟨rfl, rfl, rfl⟩

/-- Claim C3, amended: the status endpoint is a constant.  For every server
state it answers `{status: 'idle', lastRun: null}`; in particular it never
reports `Running` (so it is trivially never stuck there), and it never
reflects any run's terminal state or failure counts. -/
theorem statusGet_constant (fs : FileState) :
    statusGetHandler fs = ⟨"idle", none⟩
    ∧ (statusGetHandler fs).status ≠ "running"
    ∧ (statusGetHandler fs).lastRun = none :=
  ⟨rfl, by simp [statusGetHandler], rfl⟩

/-- Helper: the dummy players are all NBA players, so the merge filter keeps
none of them. -/
theorem dummyPlayers_filter_nonNBA (today : Int) (rng : Nat → Nat → Rat) :
    (dummyPlayers today rng).filter (fun p => p.sport != "NBA") = [] := rfl

/-- Helper: erasing the stat values makes the dummy player set independent
of the random draws. -/
theorem dummyPlayers_scrub_eq (today : Int) (rng1 rng2 : Nat → Nat → Rat) :
    (dummyPlayers today rng1).map scrubPlayer
      = (dummyPlayers today rng2).map scrubPlayer := rfl

/-- Claim C1, counterexample: two consecutive successful scrapes over the
same starting state (empty stored list, same run date) store different
player records whenever the two runs' random draws differ — here the first
stored points value is 25 after the first run and 30 after the second, so
the stored outputs are not identical. -/
theorem scrape_twice_not_identical :
    (scrapeNBAData (.stored ⟨[]⟩) 0 zeroRng).2
        = .ok (dummyPlayers 0 zeroRng)
    ∧ (scrapeNBAData ((scrapeNBAData (.stored ⟨[]⟩) 0 zeroRng).1) 0
          halfRng).2 = .ok (dummyPlayers 0 halfRng)
    ∧ (scrapeNBAData ((scrapeNBAData (.stored ⟨[]⟩) 0 zeroRng).1) 0
          halfRng).1 ≠ (scrapeNBAData (.stored ⟨[]⟩) 0 zeroRng).1 := by
  refine ⟨rfl, rfl, ?_⟩
  intro h
  have h2 := congrArg firstPointsValue h
  rw [firstPointsValue_after_rescrape, firstPointsValue_after_scrape] at h2
  norm_num [zeroRng, halfRng, roundTo1] at h2

/-- Claim C1, amended: two consecutive successful scrapes agree on
everything except the freshly drawn random stat values.  The second run
stores the new dummy players followed by exactly the same non-NBA tail as
the first, and erasing stat values makes the two stored player lists equal
(same ids, names, teams, sports, positions and date sequences); with equal
random draws (instantiate `rng2 := rng1`) the two stored states are fully
identical. -/
theorem scrape_twice_equal_up_to_values (d : PlayersData) (today : Int)
    (rng1 rng2 : Nat → Nat → Rat) :
    (scrapeNBAData (.stored d) today rng1).1
      = .stored ⟨dummyPlayers today rng1
          ++ d.players.filter (fun p => p.sport != "NBA")⟩
    ∧ (scrapeNBAData
          (.stored ⟨dummyPlayers today rng1
              ++ d.players.filter (fun p => p.sport != "NBA")⟩) today
          rng2).1
      = .stored ⟨dummyPlayers today rng2
          ++ d.players.filter (fun p => p.sport != "NBA")⟩
    ∧ (dummyPlayers today rng2
          ++ d.players.filter (fun p => p.sport != "NBA")).map scrubPlayer
      = (dummyPlayers today rng1
          ++ d.players.filter (fun p => p.sport != "NBA")).map scrubPlayer := by
  have hfilter : (dummyPlayers today rng1
      ++ d.players.filter (fun p => p.sport != "NBA")).filter
        (fun p => p.sport != "NBA")
      = d.players.filter (fun p => p.sport != "NBA") := by
    rw [List.filter_append, dummyPlayers_filter_nonNBA, List.nil_append,
      List.filter_filter]
    exact List.filter_congr (fun a _ => by rw [Bool.and_self])
  refine ⟨rfl, ?_, ?_⟩
  · exact congrArg
      (fun l => FileState.stored ⟨dummyPlayers today rng2 ++ l⟩) hfilter
  · rw [List.map_append, List.map_append,
      dummyPlayers_scrub_eq today rng2 rng1]

/-- Helper: the date sequence of a generated series, as a map over
`range 31`. -/
theorem generateHistoricalData_dates (min max today : Int)
    (rng : Nat → Rat) :
    (generateHistoricalData min max today rng).map StatPoint.date
      = (List.range 31).map (fun (k : Nat) => today - (30 - (k : Int))) := by
  unfold generateHistoricalData
  rw [List.map_map]
  rfl

/-- Helper: the dates of a generated series are strictly increasing. -/
theorem generateHistoricalData_dates_sorted (min max today : Int)
    (rng : Nat → Rat) :
    List.Pairwise (· < ·)
      ((generateHistoricalData min max today rng).map StatPoint.date) := by
  rw [generateHistoricalData_dates, List.pairwise_map]
  refine (List.pairwise_lt_range 31).imp ?_
  intro a b hab
  omega

/-- Claim C5: every stat series written by a scrape run — the three metric
series of each returned (and stored) player — has strictly increasing
dates, so in particular at most one StatPoint per date. -/
theorem scrape_series_dates_strictly_ascending (fs : FileState) (today : Int)
    (rng : Nat → Nat → Rat) (ps : List Player)
    (hrun : (scrapeNBAData fs today rng).2 = .ok ps) :
    ∀ p ∈ ps,
      List.Pairwise (· < ·) (p.stats.points.map StatPoint.date)
      ∧ List.Pairwise (· < ·) (p.stats.rebounds.map StatPoint.date)
      ∧ List.Pairwise (· < ·) (p.stats.assists.map StatPoint.date) := by
  have hps := scrape_ok_eq_dummyPlayers fs today rng ps hrun
  subst hps
  intro p hp
  simp only [dummyPlayers, List.mem_cons, List.not_mem_nil, or_false] at hp
  rcases hp with rfl | rfl <;>
    exact ⟨generateHistoricalData_dates_sorted _ _ _ _,
      generateHistoricalData_dates_sorted _ _ _ _,
      generateHistoricalData_dates_sorted _ _ _ _⟩

/-- Witness for `scrape_series_dates_strictly_ascending` at the first
player of a run over an absent file. -/
theorem scrape_series_dates_strictly_ascending_witness :
    List.Pairwise (· < ·)
      ((dummyPlayers 0 zeroRng).headI.stats.points.map StatPoint.date) :=
  (scrape_series_dates_strictly_ascending .absent 0 zeroRng
      (dummyPlayers 0 zeroRng) rfl (dummyPlayers 0 zeroRng).headI
      (by simp [dummyPlayers])).1

/-- Helper: rounding to one decimal never drops below an integer lower
bound of a nonnegative input. -/
theorem roundTo1_lower (m : Int) (x : Rat) (h0 : 0 ≤ x)
    (h1 : (m : Rat) ≤ x) : (m : Rat) ≤ roundTo1 x := by
  rw [roundTo1, if_pos h0]
  have h3 : (10 * m : Int) ≤ ⌊10 * x + 1/2⌋ :=
    Int.le_floor.2 (by push_cast; linarith)
  have h4 : ((10 * m : Int) : Rat) ≤ ((⌊10 * x + 1/2⌋ : Int) : Rat) := by
    exact_mod_cast h3
  push_cast at h4
  linarith

/-- Helper: rounding to one decimal never exceeds an integer upper bound of
a nonnegative input. -/
theorem roundTo1_upper (M : Int) (x : Rat) (h0 : 0 ≤ x)
    (h1 : x ≤ (M : Rat)) : roundTo1 x ≤ (M : Rat) := by
  rw [roundTo1, if_pos h0]
  have h3 : ⌊10 * x + 1/2⌋ < 10 * M + 1 :=
    Int.floor_lt.2 (by push_cast; linarith)
  have h4 : ((⌊10 * x + 1/2⌋ : Int) : Rat) ≤ ((10 * M : Int) : Rat) := by
    exact_mod_cast Int.lt_add_one_iff.1 h3
  push_cast at h4
  linarith

/-- Claim C9: a generated series has exactly 31 StatPoints, dated on the 31
consecutive days from 30 days before the run date through the run date, and
with random draws in `[0, 1)` every value lies within the metric's
configured `[min, max]` bounds (all configured bounds in `dummyPlayers` are
nonnegative with `min ≤ max`, e.g. 25 and 35 for the first player's
points). -/
theorem generateHistoricalData_shape (min max today : Int) (rng : Nat → Rat)
    (hmin : 0 ≤ min) (hmm : min ≤ max)
    (hrng : ∀ k, 0 ≤ rng k ∧ rng k < 1) :
    (generateHistoricalData min max today rng).length = 31
    ∧ (generateHistoricalData min max today rng).map StatPoint.date
        = (List.range 31).map (fun (k : Nat) => today - 30 + (k : Int))
    ∧ ∀ pt ∈ generateHistoricalData min max today rng,
        (min : Rat) ≤ pt.value ∧ pt.value ≤ (max : Rat) := by
  refine ⟨by simp [generateHistoricalData], ?_, ?_⟩
  · rw [generateHistoricalData_dates]
    exact List.map_congr_left (fun k _ => by omega)
  · intro pt hpt
    unfold generateHistoricalData at hpt
    rw [List.mem_map] at hpt
    obtain ⟨k, -, rfl⟩ := hpt
    obtain ⟨hr0, hr1⟩ := hrng k
    have hmm' : (min : Rat) ≤ (max : Rat) := by exact_mod_cast hmm
    have hm0 : (0 : Rat) ≤ (min : Rat) := by exact_mod_cast hmin
    have hd : (0 : Rat) ≤ (max : Rat) - (min : Rat) := by linarith
    have hlo : 0 ≤ rng k * ((max : Rat) - (min : Rat)) :=
      mul_nonneg hr0 hd
    have hhi : rng k * ((max : Rat) - (min : Rat))
        ≤ (max : Rat) - (min : Rat) := by nlinarith
    exact ⟨roundTo1_lower min _ (by linarith) (by linarith),
      roundTo1_upper max _ (by linarith) (by linarith)⟩

/-- Witness for `generateHistoricalData_shape` at the first player's points
bounds. -/
theorem generateHistoricalData_shape_witness :
    (generateHistoricalData 25 35 0 (fun _ => 0)).length = 31 :=
  (generateHistoricalData_shape 25 35 0 (fun _ => 0) (by decide) (by decide)
    (fun _ => ⟨le_refl 0, zero_lt_one⟩)).1

/-- Helper: the find predicate of the `/:id` route holds exactly when the
parameter parses to an integer equal to the player's id. -/
theorem idMatches_iff (s : String) (p : Player) :
    idMatches s p = true ↔ ∃ n, parseIntJS s = some n ∧ p.id = n := by
  unfold idMatches
  cases h : parseIntJS s <;> simp [h]

/-- Claim C10: the single-player read never modifies the data file, answers
404 `'Player not found'` exactly when no stored player's id equals the
integer parse of the path parameter (in particular whenever the parse is
`NaN`), and any 200 answer is a stored player whose id equals that parse. -/
theorem getPlayerById_spec (d : PlayersData) (idParam : String) :
    (getPlayerById (.stored d) idParam).2 = .stored d
    ∧ ((getPlayerById (.stored d) idParam).1
          = .notFound "Player not found"
        ↔ ∀ p ∈ d.players, ¬∃ n, parseIntJS idParam = some n ∧ p.id = n)
    ∧ ∀ q, (getPlayerById (.stored d) idParam).1 = .ok q →
        q ∈ d.players ∧ ∃ n, parseIntJS idParam = some n ∧ q.id = n := by
  cases hfind : d.players.find? (idMatches idParam) with
  | none =>
      have hresp : getPlayerById (.stored d) idParam
          = (.notFound "Player not found", .stored d) := by
        simp [getPlayerById, hfind]
      rw [hresp]
      refine ⟨rfl, ?_, ?_⟩
      · constructor
        · intro _ p hp hex
          exact List.find?_eq_none.1 hfind p hp
            ((idMatches_iff idParam p).2 hex)
        · intro _
          rfl
      · intro q hq
        simp at hq
  | some p =>
      have hresp : getPlayerById (.stored d) idParam
          = (.ok p, .stored d) := by
        simp [getPlayerById, hfind]
      rw [hresp]
      refine ⟨rfl, ?_, ?_⟩
      · constructor
        · intro h
          simp at h
        · intro hall
          exact ((hall p (List.mem_of_find?_eq_some hfind))
            ((idMatches_iff idParam p).1 (List.find?_some hfind))).elim
      · intro q hq
        have hq' : p = q := by simpa using hq
        subst hq'
        exact ⟨List.mem_of_find?_eq_some hfind,
          (idMatches_iff idParam p).1 (List.find?_some hfind)⟩

/-- Witness for `getPlayerById_spec` at a one-player store and the
parameter `"7"`. -/
theorem getPlayerById_spec_witness :
    samplePlayer ∈ (PlayersData.mk [samplePlayer]).players
    ∧ ∃ n, parseIntJS "7" = some n ∧ samplePlayer.id = n :=
  (getPlayerById_spec ⟨[samplePlayer]⟩ "7").2.2 samplePlayer rfl

/-- Helper: a release schedule serves exactly the queued callers, one
release per arrival. -/
theorem releaseSchedule_length (d : Nat) (prev : Option Nat)
    (l : List Nat) :
    (releaseSchedule d prev l).length = l.length := by
  induction l generalizing prev with
  | nil => cases prev <;> rfl
  | cons a rest ih => cases prev <;> simp [releaseSchedule, ih]

/-- Helper: starting from a last release at time `t`, consecutive releases
are at least `d` apart, and the first is at least `t + d`. -/
theorem releaseSchedule_chain (d t : Nat) (l : List Nat) :
    List.Chain (fun r1 r2 => r1 + d ≤ r2) t
      (releaseSchedule d (some t) l) := by
  induction l generalizing t with
  | nil => exact List.Chain.nil
  | cons a rest ih =>
      simp only [releaseSchedule]
      exact List.Chain.cons (Nat.le_max_right a (t + d)) (ih _)

/-- Helper: with no prior release, consecutive releases are at least `d`
apart. -/
theorem releaseSchedule_chain_of_none (d : Nat) (l : List Nat) :
    List.Chain' (fun r1 r2 => r1 + d ≤ r2) (releaseSchedule d none l) := by
  cases l with
  | nil => simp [releaseSchedule]
  | cons a rest => exact releaseSchedule_chain d a rest

/-- Helper: no caller is released before its arrival. -/
theorem releaseSchedule_ge_arrival (d : Nat) (l : List Nat) :
    ∀ prev i, i < l.length →
      l.getD i 0 ≤ (releaseSchedule d prev l).getD i 0 := by
  induction l with
  | nil =>
      intro prev i h
      simp at h
  | cons a rest ih =>
      intro prev i h
      cases prev with
      | none =>
          cases i with
          | zero => simp [releaseSchedule]
          | succ j =>
              simp only [releaseSchedule, List.getD_cons_succ]
              exact ih (some a) j (by simpa using h)
      | some t =>
          cases i with
          | zero =>
              simp only [releaseSchedule, List.getD_cons_zero]
              exact Nat.le_max_left a (t + d)
          | succ j =>
              simp only [releaseSchedule, List.getD_cons_succ]
              exact ih (some (Nat.max a (t + d))) j (by simpa using h)

/-- Claim C7: in the spec-modelled RateLimiter for one origin, every caller
of the FIFO queue gets exactly one release, consecutive releases are never
closer than the effective delay (the maximum of the robots.txt crawl-delay
and the configured floor), no caller is released before it arrives, and
releases happen one at a time in queue (FIFO) order — release times are
positionally aligned with arrivals and nondecreasing. -/
theorem rateLimiter_spacing_and_fifo (c : RateLimiterConfig)
    (arrivals : List Nat) :
    (releaseSchedule (effectiveDelay c) none arrivals).length
        = arrivals.length
    ∧ List.Chain' (fun r1 r2 => r1 + effectiveDelay c ≤ r2)
        (releaseSchedule (effectiveDelay c) none arrivals)
    ∧ (∀ i, i < arrivals.length →
        arrivals.getD i 0
          ≤ (releaseSchedule (effectiveDelay c) none arrivals).getD i 0)
    ∧ List.Chain' (· ≤ ·) (releaseSchedule (effectiveDelay c) none arrivals) :=
  ⟨releaseSchedule_length _ _ _,
    releaseSchedule_chain_of_none _ _,
    fun i h => releaseSchedule_ge_arrival _ _ none i h,
    List.Chain'.imp (fun a b h => by omega)
      (releaseSchedule_chain_of_none _ _)⟩

/-- Witness for `rateLimiter_spacing_and_fifo` at a three-caller queue with
crawl-delay 2 and floor 1. -/
theorem rateLimiter_spacing_and_fifo_witness :
    [0, 0, 5].getD 0 0
      ≤ (releaseSchedule (effectiveDelay ⟨2, 1⟩) none [0, 0, 5]).getD 0 0 :=
  (rateLimiter_spacing_and_fifo ⟨2, 1⟩ [0, 0, 5]).2.2.1 0 (by decide)
